import Mathlib

/-!
Verification development for the VirtIO block driver in
src/risc_v/ch9/src/block.rs.

The driver is embedded shallowly: MMIO register writes become an explicit
trace of write events, the global mutable registry BLOCK_DEVICES becomes an
Option (List BlockDevice) threaded through each operation, and the shared
descriptor ring becomes explicit list state.  Machine integers are Nat, with
an explicit mod 2 ^ 16 where the u16 cursor arithmetic could overflow.

The module virtio.rs of this repository is not part of src/: the numeric
values of its constants (descriptor flags, status bits, the fixed ring
capacity VIRTIO_RING_SIZE) and its helper StatusField::features_ok are
modelled from the spec where needed; the ring capacity is kept as an
explicit parameter r of every operation.
-/

namespace OSBlog

/-- Modelled from the spec: the CHAINED descriptor flag (VIRTIO_DESC_F_NEXT
from virtio.rs, which is missing from src/); a bit distinct from the
DEVICE_WRITABLE bit. -/
def VIRTIO_DESC_F_NEXT : Nat := 1

/-- Modelled from the spec: the DEVICE_WRITABLE descriptor flag
(VIRTIO_DESC_F_WRITE from virtio.rs, which is missing from src/). -/
def VIRTIO_DESC_F_WRITE : Nat := 2

namespace StatusField

/-- Modelled from the spec: the ACKNOWLEDGE status bit (StatusField of
virtio.rs, which is missing from src/; the spec lists the five status bits
as distinct OR-able bits of the 32-bit status register). -/
def Acknowledge : Nat := 1

/-- Modelled from the spec: the DRIVER status bit. -/
def Driver : Nat := 2

/-- Modelled from the spec: the DRIVER_OK status bit. -/
def DriverOk : Nat := 4

/-- Modelled from the spec: the FEATURES_OK status bit. -/
def FeaturesOk : Nat := 8

/-- Modelled from the spec: the FAILED status bit. -/
def Failed : Nat := 128

/-- Modelled from the spec: StatusField::features_ok of virtio.rs (missing
from src/) tests whether the FEATURES_OK bit is set in a status value. -/
def features_ok (s : Nat) : Bool := s &&& FeaturesOk ≠ 0

end StatusField

/-- Request type value VIRTIO_BLK_T_IN (a read), from block.rs. -/
def VIRTIO_BLK_T_IN : Nat := 0

/-- Request type value VIRTIO_BLK_T_OUT (a write), from block.rs. -/
def VIRTIO_BLK_T_OUT : Nat := 1

/-- Feature bit position VIRTIO_BLK_F_RO, from block.rs. -/
def VIRTIO_BLK_F_RO : Nat := 5

/-- Size in bytes of the Header struct of block.rs under repr(C):
u32 + u32 + u64 = 4 + 4 + 8. -/
def sizeOfHeader : Nat := 16

/-- Size in bytes of the Status struct of block.rs (a single u8). -/
def sizeOfStatus : Nat := 1

/-- Size in bytes of the Request struct of block.rs under repr(C) on the
64-bit target: header at offset 0 (16 bytes), data pointer at 16 (8 bytes),
status at 24 (1 byte), head u16 at 26, end 28, rounded up to the struct
alignment 8. -/
def sizeOfRequest : Nat := 32

/-- Byte offset of the status field inside the Request struct (repr(C)
layout, see sizeOfRequest). -/
def statusOffsetInRequest : Nat := 24

/-- The MMIO registers of the device register block that block.rs touches
(MmioOffsets of virtio.rs names their offsets; only their identity matters
here). -/
inductive MmioReg where
  | Status
  | HostFeatures
  | GuestFeatures
  | QueueNumMax
  | QueueNum
  | QueuePfn
  | QueueNotify
  deriving Repr, DecidableEq

/-- One volatile MMIO write: which register, and the 32-bit value written. -/
structure MmioWrite where
  reg : MmioReg
  value : Nat
  deriving Repr, DecidableEq

/-- A VirtIO descriptor: one ring entry (addr, len, flags, next), mirroring
Descriptor of virtio.rs as used by block.rs. -/
structure Descriptor where
  addr : Nat
  len : Nat
  flags : Nat
  next : Nat
  deriving Repr, DecidableEq

/-- The all-zero descriptor, the content of a freshly zero-allocated slot. -/
def zeroDesc : Descriptor := ⟨0, 0, 0, 0⟩

/-- The shared ring (Queue of virtio.rs) as far as block.rs uses it: the
descriptor array, the available ring of published head indices, and the
available producer index.  The used ring is never touched by this code and
is omitted. -/
structure Queue where
  desc : List Descriptor
  availRing : List Nat
  availIdx : Nat
  deriving Repr, DecidableEq

/-- The zero-filled Queue of ring capacity r, as produced by zalloc. -/
def zallocQueue (r : Nat) : Queue :=
  ⟨List.replicate r zeroDesc, List.replicate r 0, 0⟩

/-- BlockDevice of block.rs: the device owns its Queue (here by value, in
place of the raw pointer) and the u16 ring-index cursor idx.  The dev MMIO
pointer is implicit: writes through it are recorded in the returned traces. -/
structure BlockDevice where
  queue : Queue
  idx : Nat
  deriving Repr, DecidableEq

/-- The values a setup run reads back from the device registers: the host
feature word, the status value re-read after FEATURES_OK was written, and
the QueueNumMax register. -/
structure DeviceInputs where
  hostFeatures : Nat
  statusAfterFeaturesOk : Nat
  queueNumMax : Nat
  deriving Repr, DecidableEq

/-- init of block.rs: BLOCK_DEVICES.replace(VecDeque::with_capacity(1)),
i.e. the registry slot becomes an occupied, empty device list. -/
def init : Option (List BlockDevice) := some []

/-- setup_block_device of block.rs.  Parameters beyond the source signature:
r is the ring capacity VIRTIO_RING_SIZE (a constant of the missing
virtio.rs), queuePfn the address returned by zalloc, blockDevices the
current content of the global BLOCK_DEVICES slot.  Returns the boolean
result, the content of BLOCK_DEVICES after the call, and the trace of MMIO
writes in order.  Note that on the two early-failure paths the taken
registry is dropped, never replaced, so the slot stays empty. -/
def setup_block_device (r : Nat) (queuePfn : Nat) (inp : DeviceInputs)
    (blockDevices : Option (List BlockDevice)) :
    Bool × Option (List BlockDevice) × List MmioWrite :=
  match blockDevices with
  | none => (false, none, [])
  | some vdq =>
    -- 1. Reset the device (write 0 into status)
    let t0 : List MmioWrite := [⟨MmioReg.Status, 0⟩]
    -- 2. Set ACKNOWLEDGE status bit
    let status_bits := StatusField.Acknowledge
    let t1 := t0 ++ [⟨MmioReg.Status, status_bits⟩]
    -- source line 132: under the comment naming the DRIVER bit, the code
    -- ORs StatusField::DriverOk into status_bits
    let status_bits := status_bits ||| StatusField.DriverOk
    let t2 := t1 ++ [⟨MmioReg.Status, status_bits⟩]
    -- 4. read host features, write subset with the read-only bit cleared
    let host_features := inp.hostFeatures
    let guest_features := host_features &&& ((2 ^ 32 - 1) ^^^ (1 <<< VIRTIO_BLK_F_RO))
    let t3 := t2 ++ [⟨MmioReg.GuestFeatures, guest_features⟩]
    -- 5. Set the FEATURES_OK status bit
    let status_bits := status_bits ||| StatusField.FeaturesOk
    let t4 := t3 ++ [⟨MmioReg.Status, status_bits⟩]
    -- 6. Re-read status to ensure FEATURES_OK is still set
    let status_ok := inp.statusAfterFeaturesOk
    if StatusField.features_ok status_ok = false then
      (false, none, t4 ++ [⟨MmioReg.Status, StatusField.Failed⟩])
    else
      -- 7. device-specific setup: queue size
      let qnmax := inp.queueNumMax
      let t5 := t4 ++ [⟨MmioReg.QueueNum, r⟩]
      if r > qnmax then
        (false, none, t5)
      else
        let queue_ptr := zallocQueue r
        let t6 := t5 ++ [⟨MmioReg.QueuePfn, queuePfn % 2 ^ 32⟩]
        let bd : BlockDevice := ⟨queue_ptr, 1⟩
        let vdq' := vdq ++ [bd]
        -- 8. Set the DRIVER_OK status bit.  Device is now live
        let status_bits := status_bits ||| StatusField.DriverOk
        let t7 := t6 ++ [⟨MmioReg.Status, status_bits⟩]
        (true, some vdq', t7)

/-- fill_next_descriptor of block.rs: advance the u16 cursor by one modulo
the ring capacity r, store the descriptor at the new cursor, and if the
stored flags have the CHAINED bit, pre-set the next field of that slot to the
following index modulo r.  Returns the updated device and the index used. -/
def fill_next_descriptor (r : Nat) (bd : BlockDevice) (d : Descriptor) :
    BlockDevice × Nat :=
  let idx := (bd.idx + 1) % 2 ^ 16 % r
  let q0 := bd.queue
  let q1 : Queue := ⟨q0.desc.set idx d, q0.availRing, q0.availIdx⟩
  let q2 : Queue :=
    if (q1.desc.getD idx zeroDesc).flags &&& VIRTIO_DESC_F_NEXT ≠ 0 then
      ⟨q1.desc.set idx ⟨d.addr, d.len, d.flags, (idx + 1) % 2 ^ 16 % r⟩,
       q1.availRing, q1.availIdx⟩
    else q1
  (⟨q2, idx⟩, idx)

/-- The header fields that the read path of block.rs writes into the
heap-allocated Request: blktype and sector.  The source Header also has a
reserved u32 field, but read never writes it (the Request comes from
kmalloc and never written), so it is not modelled. -/
structure HeaderWritten where
  blktype : Nat
  sector : Nat
  deriving Repr, DecidableEq

/-- Outcome of a read call: the registry slot was empty (silent no-op), the
device index was out of range (unwrap panics), or the request was submitted;
in the last case the final device state, the written header fields, the
three descriptor indices, and the MMIO writes are recorded. -/
inductive ReadOutcome where
  | noop
  | panicked
  | ok (bdev : BlockDevice) (header : HeaderWritten)
      (headIdx dataIdx statusIdx : Nat) (mmio : List MmioWrite)
  deriving Repr, DecidableEq

/-- read of block.rs.  Model parameters beyond the source signature: r is
the ring capacity, reqAddr the address kmalloc returns for the Request.
The source takes the registry and never replaces it, so the first returned
component (the content of BLOCK_DEVICES after the call) is always none. -/
def read (r reqAddr : Nat) (dev buffer size offset : Nat)
    (blockDevices : Option (List BlockDevice)) :
    Option (List BlockDevice) × ReadOutcome :=
  match blockDevices with
  | none => (none, ReadOutcome.noop)
  | some bdev_alloc =>
    match bdev_alloc.get? dev with
    | none => (none, ReadOutcome.panicked)
    | some bdev =>
      let sector := offset / 512
      let blk_request_size := sizeOfRequest
      -- header descriptor: addr = address of the header field (offset 0 of
      -- the Request), len = size_of::<Request>() as in the source
      let d1 : Descriptor := ⟨reqAddr, blk_request_size, VIRTIO_DESC_F_NEXT, 0⟩
      let p1 := fill_next_descriptor r bdev d1
      let bdev := p1.1
      let head_idx := p1.2
      let header : HeaderWritten := ⟨VIRTIO_BLK_T_IN, sector⟩
      let d2 : Descriptor :=
        ⟨buffer, size, VIRTIO_DESC_F_NEXT ||| VIRTIO_DESC_F_WRITE, 0⟩
      let p2 := fill_next_descriptor r bdev d2
      let bdev := p2.1
      let data_idx := p2.2
      let d3 : Descriptor :=
        ⟨reqAddr + statusOffsetInRequest, sizeOfStatus, VIRTIO_DESC_F_WRITE, 0⟩
      let p3 := fill_next_descriptor r bdev d3
      let bdev := p3.1
      let status_idx := p3.2
      let q := bdev.queue
      let q1 : Queue := ⟨q.desc, q.availRing.set q.availIdx head_idx, q.availIdx⟩
      let q2 : Queue := ⟨q1.desc, q1.availRing, (q1.availIdx + 1) % 2 ^ 16 % r⟩
      let bdev' : BlockDevice := ⟨q2, bdev.idx⟩
      (none, ReadOutcome.ok bdev' header head_idx data_idx status_idx
        [⟨MmioReg.QueueNotify, 0⟩])

/-- Outcome of a write call, mirroring ReadOutcome; the source write path
fills three all-zero descriptors and does nothing else. -/
inductive WriteOutcome where
  | noop
  | panicked
  | ok (bdev : BlockDevice) (headIdx dataIdx statusIdx : Nat)
  deriving Repr, DecidableEq

/-- write of block.rs: takes the registry (never replacing it), panics on a
missing device index, and otherwise installs three zero descriptors; it
never touches the available ring, the header, or the notify register. -/
def write (r : Nat) (dev buffer size offset : Nat)
    (blockDevices : Option (List BlockDevice)) :
    Option (List BlockDevice) × WriteOutcome :=
  match blockDevices with
  | none => (none, WriteOutcome.noop)
  | some bdev_alloc =>
    match bdev_alloc.get? dev with
    | none => (none, WriteOutcome.panicked)
    | some bdev =>
      let _sector := offset / 512
      let p1 := fill_next_descriptor r bdev zeroDesc
      let p2 := fill_next_descriptor r p1.1 zeroDesc
      let p3 := fill_next_descriptor r p2.1 zeroDesc
      (none, WriteOutcome.ok p3.1 p1.2 p2.2 p3.2)

/-- Running a list of descriptor allocations through fill_next_descriptor,
collecting the returned indices. -/
def allocRun (r : Nat) (bd : BlockDevice) : List Descriptor → BlockDevice × List Nat
  | [] => (bd, [])
  | d :: ds =>
    let p := fill_next_descriptor r bd d
    let q := allocRun r p.1 ds
    (q.1, p.2 :: q.2)

/-- The ring descriptor a ReadOutcome left at its head index, if any. -/
def ReadOutcome.headDesc : ReadOutcome → Option Descriptor
  | ReadOutcome.ok bdev _ h _ _ _ => bdev.queue.desc.get? h
  | _ => none

/-- A sample one-device registry entry: a freshly set-up device on a ring of
capacity 8 (cursor 1, zeroed queue), used for concrete evaluations. -/
def sampleBD : BlockDevice := ⟨zallocQueue 8, 1⟩

/-- Register fixture on which the whole handshake succeeds: the re-read
status keeps FEATURES_OK (bit 8) and QueueNumMax is 8. -/
def sampleInputsOk : DeviceInputs := ⟨0, 8, 8⟩

/-- Register fixture on which the device drops FEATURES_OK on re-read. -/
def sampleInputsFeatFail : DeviceInputs := ⟨0, 0, 8⟩

/-- Register fixture that accepts the features but reports QueueNumMax 0. -/
def sampleInputsSmallQueue : DeviceInputs := ⟨0, 8, 0⟩

/-- The u16 wrap in the cursor arithmetic is invisible while the cursor is
below the ring capacity and the capacity is at most 2 ^ 16. -/
lemma mod16_mod {i r : Nat} (h : i < r) (h16 : r ≤ 2 ^ 16) :
    (i + 1) % 2 ^ 16 % r = (i + 1) % r := by
  rcases Nat.lt_or_ge (i + 1) (2 ^ 16) with hlt | hge
  · rw [Nat.mod_eq_of_lt hlt]
  · have h2 : i + 1 = r := by omega
    have h3 : r = 2 ^ 16 := by omega
    rw [h2, h3]
    simp [Nat.mod_self]

/-- The returned index of fill_next_descriptor, definitionally. -/
lemma fill_snd (r : Nat) (bd : BlockDevice) (d : Descriptor) :
    (fill_next_descriptor r bd d).2 = (bd.idx + 1) % 2 ^ 16 % r := rfl

/-- The updated cursor of fill_next_descriptor, definitionally. -/
lemma fill_fst_idx (r : Nat) (bd : BlockDevice) (d : Descriptor) :
    (fill_next_descriptor r bd d).1.idx = (bd.idx + 1) % 2 ^ 16 % r := rfl

/-- The available ring and its producer index are untouched by
fill_next_descriptor. -/
lemma fill_avail (r : Nat) (bd : BlockDevice) (d : Descriptor) :
    (fill_next_descriptor r bd d).1.queue.availRing = bd.queue.availRing ∧
    (fill_next_descriptor r bd d).1.queue.availIdx = bd.queue.availIdx := by
  unfold fill_next_descriptor
  dsimp only
  split <;> exact ⟨rfl, rfl⟩

/-- Full characterization of fill_next_descriptor when the cursor is in
range and the descriptor array has the ring capacity as its length. -/
lemma fill_spec (r : Nat) (bd : BlockDevice) (d : Descriptor)
    (h0 : bd.idx < r) (h16 : r ≤ 2 ^ 16)
    (hlen : bd.queue.desc.length = r) :
    fill_next_descriptor r bd d =
      (⟨⟨bd.queue.desc.set ((bd.idx + 1) % r)
           (if d.flags &&& VIRTIO_DESC_F_NEXT ≠ 0 then
              ⟨d.addr, d.len, d.flags, ((bd.idx + 1) % r + 1) % r⟩
            else d),
         bd.queue.availRing, bd.queue.availIdx⟩,
        (bd.idx + 1) % r⟩,
       (bd.idx + 1) % r) := by
  have hr : 0 < r := by omega
  have hm : (bd.idx + 1) % 2 ^ 16 % r = (bd.idx + 1) % r := mod16_mod h0 h16
  have hidx : (bd.idx + 1) % r < bd.queue.desc.length := by
    rw [hlen]
    exact Nat.mod_lt _ hr
  unfold fill_next_descriptor
  dsimp only
  rw [hm, mod16_mod (Nat.mod_lt _ hr) h16]
  rw [List.getD_eq_get?, List.get?_set_eq_of_lt _ hidx, Option.getD_some]
  split_ifs with h
  · simp [List.set_set]
  · rfl

/-- fill_next_descriptor on a descriptor with the CHAINED flag set. -/
lemma fill_spec_chained (r : Nat) (bd : BlockDevice) (d : Descriptor)
    (h0 : bd.idx < r) (h16 : r ≤ 2 ^ 16)
    (hlen : bd.queue.desc.length = r)
    (hd : d.flags &&& VIRTIO_DESC_F_NEXT ≠ 0) :
    fill_next_descriptor r bd d =
      (⟨⟨bd.queue.desc.set ((bd.idx + 1) % r)
           ⟨d.addr, d.len, d.flags, ((bd.idx + 1) % r + 1) % r⟩,
         bd.queue.availRing, bd.queue.availIdx⟩,
        (bd.idx + 1) % r⟩,
       (bd.idx + 1) % r) := by
  rw [fill_spec r bd d h0 h16 hlen, if_pos hd]

/-- fill_next_descriptor on a descriptor without the CHAINED flag. -/
lemma fill_spec_unchained (r : Nat) (bd : BlockDevice) (d : Descriptor)
    (h0 : bd.idx < r) (h16 : r ≤ 2 ^ 16)
    (hlen : bd.queue.desc.length = r)
    (hd : d.flags &&& VIRTIO_DESC_F_NEXT = 0) :
    fill_next_descriptor r bd d =
      (⟨⟨bd.queue.desc.set ((bd.idx + 1) % r) d,
         bd.queue.availRing, bd.queue.availIdx⟩,
        (bd.idx + 1) % r⟩,
       (bd.idx + 1) % r) := by
  rw [fill_spec r bd d h0 h16 hlen, if_neg (by simp [hd])]

/-- The cursor value after an allocation run depends only on the starting
cursor and the number of allocations, and the returned indices are the
successive cursor values. -/
lemma allocRun_spec (r : Nat) (h16 : r ≤ 2 ^ 16) :
    ∀ (ds : List Descriptor) (bd : BlockDevice), bd.idx < r →
      (allocRun r bd ds).1.idx = (bd.idx + ds.length) % r ∧
      (allocRun r bd ds).2 =
        (List.range ds.length).map (fun k => (bd.idx + (k + 1)) % r) := by
  intro ds
  induction ds with
  | nil =>
    intro bd h0
    simp [allocRun, Nat.mod_eq_of_lt h0]
  | cons d ds ih =>
    intro bd h0
    have hr : 0 < r := by omega
    have hm : (bd.idx + 1) % 2 ^ 16 % r = (bd.idx + 1) % r := mod16_mod h0 h16
    have hidx1 : (fill_next_descriptor r bd d).1.idx = (bd.idx + 1) % r := by
      rw [fill_fst_idx, hm]
    have hlt1 : (fill_next_descriptor r bd d).1.idx < r := by
      rw [hidx1]
      exact Nat.mod_lt _ hr
    obtain ⟨ih1, ih2⟩ := ih (fill_next_descriptor r bd d).1 hlt1
    constructor
    · show (allocRun r (fill_next_descriptor r bd d).1 ds).1.idx = _
      rw [ih1, hidx1, List.length_cons, Nat.mod_add_mod]
      congr 1
      omega
    · show (fill_next_descriptor r bd d).2
          :: (allocRun r (fill_next_descriptor r bd d).1 ds).2 = _
      rw [fill_snd, hm, ih2, hidx1, List.length_cons, List.range_succ_eq_map,
        List.map_cons, List.map_map]
      congr 1
      refine List.map_congr_left fun k _ => ?_
      show ((bd.idx + 1) % r + (k + 1)) % r = (bd.idx + (k + 1 + 1)) % r
      rw [Nat.mod_add_mod]
      congr 1
      omega

/-- Over a run of ring-capacity + 1 allocations the returned index sequence
comes back to its start: the last returned index equals the first. -/
lemma allocRun_wraparound (r : Nat) (bd : BlockDevice) (ds : List Descriptor)
    (h0 : bd.idx < r) (h16 : r ≤ 2 ^ 16) (hds : ds.length = r + 1) :
    (allocRun r bd ds).2.head? = (allocRun r bd ds).2.getLast? ∧
    (allocRun r bd ds).2.head? = some ((bd.idx + 1) % r) := by
  obtain ⟨-, h2⟩ := allocRun_spec r h16 ds bd h0
  rw [h2, hds]
  have hhead : ((List.range (r + 1)).map (fun k => (bd.idx + (k + 1)) % r)).head?
      = some ((bd.idx + (0 + 1)) % r) := by
    rw [List.range_succ_eq_map, List.map_cons, List.head?_cons]
  have hlast : ((List.range (r + 1)).map (fun k => (bd.idx + (k + 1)) % r)).getLast?
      = some ((bd.idx + (r + 1)) % r) := by
    rw [List.range_succ, List.map_append, List.map_cons, List.map_nil,
      List.getLast?_concat]
  have hm : (bd.idx + (r + 1)) % r = (bd.idx + 1) % r := by
    have h : bd.idx + (r + 1) = bd.idx + 1 + r := by omega
    rw [h, Nat.add_mod_right]
  refine ⟨?_, ?_⟩
  · rw [hhead, hlast, hm]
  · rw [hhead]

/-- Full characterization of a read call that obtains the registry and finds
the device: exactly the three chained descriptors are installed at the next
three cursor positions, the head index is published at the current available
producer slot, the producer index advances by one, the doorbell is written,
and the registry is left empty. -/
lemma read_ok_spec (r reqAddr dev buffer size offset : Nat)
    (l : List BlockDevice) (bd : BlockDevice)
    (hdev : l.get? dev = some bd)
    (hidx : bd.idx < r) (h16 : r ≤ 2 ^ 16)
    (hlen : bd.queue.desc.length = r) :
    read r reqAddr dev buffer size offset (some l) =
      (none, ReadOutcome.ok
        ⟨⟨((bd.queue.desc.set ((bd.idx + 1) % r)
              ⟨reqAddr, sizeOfRequest, VIRTIO_DESC_F_NEXT, (bd.idx + 2) % r⟩).set
             ((bd.idx + 2) % r)
             ⟨buffer, size, VIRTIO_DESC_F_NEXT ||| VIRTIO_DESC_F_WRITE,
              (bd.idx + 3) % r⟩).set
            ((bd.idx + 3) % r)
            ⟨reqAddr + statusOffsetInRequest, sizeOfStatus, VIRTIO_DESC_F_WRITE, 0⟩,
          bd.queue.availRing.set bd.queue.availIdx ((bd.idx + 1) % r),
          (bd.queue.availIdx + 1) % 2 ^ 16 % r⟩,
         (bd.idx + 3) % r⟩
        ⟨VIRTIO_BLK_T_IN, offset / 512⟩
        ((bd.idx + 1) % r) ((bd.idx + 2) % r) ((bd.idx + 3) % r)
        [⟨MmioReg.QueueNotify, 0⟩]) := by
  have hr : 0 < r := by omega
  have hlt1 : (bd.idx + 1) % r < r := Nat.mod_lt _ hr
  have e12 : ((bd.idx + 1) % r + 1) % r = (bd.idx + 2) % r := by
    rw [Nat.mod_add_mod]
  have e23 : ((bd.idx + 2) % r + 1) % r = (bd.idx + 3) % r := by
    rw [Nat.mod_add_mod]
  have h1 := fill_spec_chained r bd
    ⟨reqAddr, sizeOfRequest, VIRTIO_DESC_F_NEXT, 0⟩ hidx h16 hlen
    (by show VIRTIO_DESC_F_NEXT &&& VIRTIO_DESC_F_NEXT ≠ 0; decide)
  have h2 := fill_spec_chained r
    ⟨⟨bd.queue.desc.set ((bd.idx + 1) % r)
        ⟨reqAddr, sizeOfRequest, VIRTIO_DESC_F_NEXT, ((bd.idx + 1) % r + 1) % r⟩,
      bd.queue.availRing, bd.queue.availIdx⟩, (bd.idx + 1) % r⟩
    ⟨buffer, size, VIRTIO_DESC_F_NEXT ||| VIRTIO_DESC_F_WRITE, 0⟩
    hlt1 h16 (by simp [hlen])
    (by show (VIRTIO_DESC_F_NEXT ||| VIRTIO_DESC_F_WRITE) &&& VIRTIO_DESC_F_NEXT ≠ 0; decide)
  have h3 := fill_spec_unchained r
    ⟨⟨(bd.queue.desc.set ((bd.idx + 1) % r)
         ⟨reqAddr, sizeOfRequest, VIRTIO_DESC_F_NEXT, ((bd.idx + 1) % r + 1) % r⟩).set
        (((bd.idx + 1) % r + 1) % r)
        ⟨buffer, size, VIRTIO_DESC_F_NEXT ||| VIRTIO_DESC_F_WRITE,
         (((bd.idx + 1) % r + 1) % r + 1) % r⟩,
      bd.queue.availRing, bd.queue.availIdx⟩, ((bd.idx + 1) % r + 1) % r⟩
    ⟨reqAddr + statusOffsetInRequest, sizeOfStatus, VIRTIO_DESC_F_WRITE, 0⟩
    (by show ((bd.idx + 1) % r + 1) % r < r; exact Nat.mod_lt _ hr) h16
    (by simp [hlen])
    (by show VIRTIO_DESC_F_WRITE &&& VIRTIO_DESC_F_NEXT = 0; decide)
  simp only [read, hdev, h1, h2, h3]
  rw [e12, e23]

/-- Reduction of setup_block_device on a registry-occupied run in which the
device drops FEATURES_OK on re-read. -/
lemma setup_reduce_featfail (r queuePfn : Nat) (inp : DeviceInputs)
    (vdq : List BlockDevice)
    (hf : StatusField.features_ok inp.statusAfterFeaturesOk = false) :
    setup_block_device r queuePfn inp (some vdq) =
      (false, none,
       [⟨MmioReg.Status, 0⟩,
        ⟨MmioReg.Status, StatusField.Acknowledge⟩,
        ⟨MmioReg.Status, StatusField.Acknowledge ||| StatusField.DriverOk⟩,
        ⟨MmioReg.GuestFeatures,
         inp.hostFeatures &&& ((2 ^ 32 - 1) ^^^ (1 <<< VIRTIO_BLK_F_RO))⟩,
        ⟨MmioReg.Status,
         StatusField.Acknowledge ||| StatusField.DriverOk ||| StatusField.FeaturesOk⟩,
        ⟨MmioReg.Status, StatusField.Failed⟩]) := by
  simp only [setup_block_device]
  rw [hf]
  rfl

/-- Reduction of setup_block_device on a registry-occupied run in which the
device keeps FEATURES_OK but reports a maximum ring size below r. -/
lemma setup_reduce_qnfail (r queuePfn : Nat) (inp : DeviceInputs)
    (vdq : List BlockDevice)
    (hf : StatusField.features_ok inp.statusAfterFeaturesOk = true)
    (hq : inp.queueNumMax < r) :
    setup_block_device r queuePfn inp (some vdq) =
      (false, none,
       [⟨MmioReg.Status, 0⟩,
        ⟨MmioReg.Status, StatusField.Acknowledge⟩,
        ⟨MmioReg.Status, StatusField.Acknowledge ||| StatusField.DriverOk⟩,
        ⟨MmioReg.GuestFeatures,
         inp.hostFeatures &&& ((2 ^ 32 - 1) ^^^ (1 <<< VIRTIO_BLK_F_RO))⟩,
        ⟨MmioReg.Status,
         StatusField.Acknowledge ||| StatusField.DriverOk ||| StatusField.FeaturesOk⟩,
        ⟨MmioReg.QueueNum, r⟩]) := by
  simp only [setup_block_device]
  rw [hf, if_neg (by simp), if_pos hq]
  rfl

/-- Reduction of setup_block_device on a fully successful run. -/
lemma setup_reduce_success (r queuePfn : Nat) (inp : DeviceInputs)
    (vdq : List BlockDevice)
    (hf : StatusField.features_ok inp.statusAfterFeaturesOk = true)
    (hq : r ≤ inp.queueNumMax) :
    setup_block_device r queuePfn inp (some vdq) =
      (true, some (vdq ++ [⟨zallocQueue r, 1⟩]),
       [⟨MmioReg.Status, 0⟩,
        ⟨MmioReg.Status, StatusField.Acknowledge⟩,
        ⟨MmioReg.Status, StatusField.Acknowledge ||| StatusField.DriverOk⟩,
        ⟨MmioReg.GuestFeatures,
         inp.hostFeatures &&& ((2 ^ 32 - 1) ^^^ (1 <<< VIRTIO_BLK_F_RO))⟩,
        ⟨MmioReg.Status,
         StatusField.Acknowledge ||| StatusField.DriverOk ||| StatusField.FeaturesOk⟩,
        ⟨MmioReg.QueueNum, r⟩,
        ⟨MmioReg.QueuePfn, queuePfn % 2 ^ 32⟩,
        ⟨MmioReg.Status,
         StatusField.Acknowledge ||| StatusField.DriverOk ||| StatusField.FeaturesOk
           ||| StatusField.DriverOk⟩]) := by
  simp only [setup_block_device]
  rw [hf, if_neg (by simp), if_neg (by omega)]
  rfl

/-- C1: the claim states that every setup_block_device, read, or write call
that finds the registry slot occupied restores it before returning.  The
code instead drops the taken registry on every read and write call and on
the setup failure paths: evaluated on concrete occupied registries, read,
write, and a feature-rejected setup all leave the slot empty, so a
subsequent read is a silent no-op.  The claim is the intended take/replace
discipline and the missing replace is a slip of the code. -/
theorem C1_registry_not_restored :
    (read 8 100 0 200 512 0 (some [sampleBD])).1 = none ∧
    (write 8 0 300 512 0 (some [sampleBD])).1 = none ∧
    (setup_block_device 8 4096 sampleInputsFeatFail (some [])).2.1 = none ∧
    (read 8 100 0 200 512 0 ((read 8 100 0 200 512 0 (some [sampleBD])).1)).2
      = ReadOutcome.noop :=
  ⟨rfl, rfl, rfl, rfl⟩

/-- C2: the claim states that step 3 of the handshake sets the DRIVER status
bit and that DRIVER_OK is written only at the final step.  In the code the
third status write already carries the DRIVER_OK bit (line 132 of block.rs
ORs StatusField::DriverOk where its own comment names the DRIVER bit), and
the DRIVER bit is never written at all: evaluated on a fully successful
concrete fixture. -/
theorem C2_driver_ok_written_at_step3 :
    (setup_block_device 8 4096 sampleInputsOk (some [])).2.2.get? 2
      = some ⟨MmioReg.Status, StatusField.Acknowledge ||| StatusField.DriverOk⟩ ∧
    (StatusField.Acknowledge ||| StatusField.DriverOk) &&& StatusField.DriverOk ≠ 0 ∧
    (∀ w ∈ (setup_block_device 8 4096 sampleInputsOk (some [])).2.2,
      w.reg = MmioReg.Status → w.value &&& StatusField.Driver = 0) := by
  refine ⟨rfl, by decide, ?_⟩
  decide

/-- C3: the claim states that the header descriptor of every read chain has
length sizeOfHeader = 16 (the wire header: 4 + 4 + 8 bytes).  The code
passes size_of::<Request>() = 32 as the length instead, although the
descriptor address is that of the header field: evaluated on a concrete
read, the installed head descriptor has length 32. -/
theorem C3_header_descriptor_has_request_size :
    ReadOutcome.headDesc ((read 8 100 0 200 512 0 (some [sampleBD])).2)
      = some ⟨100, sizeOfRequest, VIRTIO_DESC_F_NEXT, 3⟩ ∧
    sizeOfRequest = 32 ∧ sizeOfHeader = 16 ∧ sizeOfRequest ≠ sizeOfHeader := by
  refine ⟨rfl, rfl, rfl, by decide⟩

/-- C4 counterexample: on a fixture reporting a maximum ring size 0 smaller
than the ring capacity 8, setup does fail, but the trace already contains
the write of the fixed capacity to the queue-size register, contradicting
the claim that the failure occurs without that write. -/
theorem C4_counterexample_queue_num_written :
    (setup_block_device 8 4096 sampleInputsSmallQueue (some [])).1 = false ∧
    ⟨MmioReg.QueueNum, 8⟩ ∈
      (setup_block_device 8 4096 sampleInputsSmallQueue (some [])).2.2 := by
  refine ⟨rfl, ?_⟩
  decide

/-- C4 (amended): for every device whose reported maximum ring size is
smaller than the fixed ring capacity, setup_block_device returns failure
after writing the fixed capacity to the queue-size register (the write
precedes the check in the code) and before any queue-page-frame-number
write occurs. -/
theorem C4_fail_after_queue_num_before_pfn (r queuePfn : Nat)
    (inp : DeviceInputs) (vdq : List BlockDevice)
    (hf : StatusField.features_ok inp.statusAfterFeaturesOk = true)
    (hq : inp.queueNumMax < r) :
    (setup_block_device r queuePfn inp (some vdq)).1 = false ∧
    ⟨MmioReg.QueueNum, r⟩ ∈ (setup_block_device r queuePfn inp (some vdq)).2.2 ∧
    ∀ w ∈ (setup_block_device r queuePfn inp (some vdq)).2.2,
      w.reg ≠ MmioReg.QueuePfn := by
  rw [setup_reduce_qnfail r queuePfn inp vdq hf hq]
  refine ⟨rfl, by simp, ?_⟩
  intro w hw
  fin_cases hw <;> simp

/-- Witness for C4: the amended theorem applied at a concrete fixture. -/
theorem C4_fail_after_queue_num_before_pfn_witness :
    StatusField.features_ok sampleInputsSmallQueue.statusAfterFeaturesOk = true ∧
    sampleInputsSmallQueue.queueNumMax < 8 ∧
    ((setup_block_device 8 4096 sampleInputsSmallQueue (some [])).1 = false ∧
     ⟨MmioReg.QueueNum, 8⟩ ∈
       (setup_block_device 8 4096 sampleInputsSmallQueue (some [])).2.2 ∧
     ∀ w ∈ (setup_block_device 8 4096 sampleInputsSmallQueue (some [])).2.2,
       w.reg ≠ MmioReg.QueuePfn) :=
  ⟨by decide, by decide,
   C4_fail_after_queue_num_before_pfn 8 4096 sampleInputsSmallQueue []
     (by decide) (by decide)⟩

/-- C5: for every register-block state whose re-read status no longer has
FEATURES_OK set, setup_block_device returns failure, its last MMIO write is
the FAILED bit into the status register, and the six-write trace shows the
single non-retried attempt. -/
theorem C5_feature_rejection_fails_with_failed (r queuePfn : Nat)
    (inp : DeviceInputs) (vdq : List BlockDevice)
    (hf : StatusField.features_ok inp.statusAfterFeaturesOk = false) :
    (setup_block_device r queuePfn inp (some vdq)).1 = false ∧
    (setup_block_device r queuePfn inp (some vdq)).2.2.getLast?
      = some ⟨MmioReg.Status, StatusField.Failed⟩ ∧
    (setup_block_device r queuePfn inp (some vdq)).2.2.length = 6 := by
  rw [setup_reduce_featfail r queuePfn inp vdq hf]
  exact ⟨rfl, rfl, rfl⟩

/-- Witness for C5 at a concrete fixture that clears FEATURES_OK. -/
theorem C5_feature_rejection_witness :
    StatusField.features_ok sampleInputsFeatFail.statusAfterFeaturesOk = false ∧
    ((setup_block_device 8 4096 sampleInputsFeatFail (some [])).1 = false ∧
     (setup_block_device 8 4096 sampleInputsFeatFail (some [])).2.2.getLast?
       = some ⟨MmioReg.Status, StatusField.Failed⟩ ∧
     (setup_block_device 8 4096 sampleInputsFeatFail (some [])).2.2.length = 6) :=
  ⟨by decide,
   C5_feature_rejection_fails_with_failed 8 4096 sampleInputsFeatFail [] (by decide)⟩

/-- C10: on every read or write call that obtains the registry, a device
index at or beyond the number of registered devices makes the call panic
(the unwrap of the missing element), not return an error or fall through
silently. -/
theorem C10_out_of_range_device_index_panics
    (r reqAddr dev buffer size offset bufw sizew offw : Nat)
    (l : List BlockDevice) (h : l.length ≤ dev) :
    (read r reqAddr dev buffer size offset (some l)).2 = ReadOutcome.panicked ∧
    (write r dev bufw sizew offw (some l)).2 = WriteOutcome.panicked := by
  have hnone : l.get? dev = none := List.get?_eq_none.mpr h
  constructor
  · simp only [read, hnone]
  · simp only [write, hnone]

/-- Witness for C10: one registered device, device index 1 requested. -/
theorem C10_out_of_range_witness :
    ([sampleBD] : List BlockDevice).length ≤ 1 ∧
    ((read 8 100 1 200 512 0 (some [sampleBD])).2 = ReadOutcome.panicked ∧
     (write 8 1 300 512 0 (some [sampleBD])).2 = WriteOutcome.panicked) :=
  ⟨by decide, C10_out_of_range_device_index_panics 8 100 1 200 512 0 300 512 0
    [sampleBD] (by decide)⟩

/-- Two ring positions k apart, 0 < k < r, reduce to different residues. -/
lemma mod_ne_of_period {x k r : Nat} (hk0 : 0 < k) (hkr : k < r) :
    x % r ≠ (x + k) % r := by
  intro h
  have hmod : x ≡ x + k [MOD r] := h
  have hdvd := (Nat.modEq_iff_dvd' (Nat.le_add_right x k)).mp hmod
  rw [Nat.add_sub_cancel_left] at hdvd
  exact absurd (Nat.le_of_dvd hk0 hdvd) (by omega)

/-- Indexing a replicate list inside its length. -/
lemma get?_replicate_lt {α : Type} (x : α) {n i : Nat} (h : i < n) :
    (List.replicate n x).get? i = some x := by
  induction n generalizing i with
  | zero => omega
  | succ n ih =>
    cases i with
    | zero => rfl
    | succ i => exact ih (by omega)

/-- C6: every read that obtains the registry and finds the device installs
exactly three descriptors at the three successive cursor positions; the
head index of the outcome is that of the header descriptor; the written header
has sector byte_offset / 512 and type READ; the data descriptor carries the
buffer and size of the caller with a DEVICE_WRITABLE flag; the status descriptor
has no CHAINED flag; all other ring slots are unchanged. -/
theorem C6_read_builds_three_descriptor_chain
    (r reqAddr dev buffer size offset : Nat)
    (l : List BlockDevice) (bd : BlockDevice)
    (hdev : l.get? dev = some bd) (hidx : bd.idx < r) (hr3 : 3 ≤ r)
    (h16 : r ≤ 2 ^ 16) (hlen : bd.queue.desc.length = r) :
    ∃ bdev,
      (read r reqAddr dev buffer size offset (some l)).2 =
        ReadOutcome.ok bdev ⟨VIRTIO_BLK_T_IN, offset / 512⟩
          ((bd.idx + 1) % r) ((bd.idx + 2) % r) ((bd.idx + 3) % r)
          [⟨MmioReg.QueueNotify, 0⟩] ∧
      bdev.queue.desc.get? ((bd.idx + 2) % r)
        = some ⟨buffer, size, VIRTIO_DESC_F_NEXT ||| VIRTIO_DESC_F_WRITE,
                (bd.idx + 3) % r⟩ ∧
      (VIRTIO_DESC_F_NEXT ||| VIRTIO_DESC_F_WRITE) &&& VIRTIO_DESC_F_WRITE ≠ 0 ∧
      bdev.queue.desc.get? ((bd.idx + 3) % r)
        = some ⟨reqAddr + statusOffsetInRequest, sizeOfStatus,
                VIRTIO_DESC_F_WRITE, 0⟩ ∧
      VIRTIO_DESC_F_WRITE &&& VIRTIO_DESC_F_NEXT = 0 ∧
      (∀ j, j ≠ (bd.idx + 1) % r → j ≠ (bd.idx + 2) % r → j ≠ (bd.idx + 3) % r →
        bdev.queue.desc.get? j = bd.queue.desc.get? j) := by
  have hr : 0 < r := by omega
  have hlt2 : (bd.idx + 2) % r < r := Nat.mod_lt _ hr
  have hlt3 : (bd.idx + 3) % r < r := Nat.mod_lt _ hr
  have hne23 : (bd.idx + 2) % r ≠ (bd.idx + 3) % r :=
    mod_ne_of_period (k := 1) (by omega) (by omega)
  have hspec := read_ok_spec r reqAddr dev buffer size offset l bd hdev hidx h16 hlen
  refine ⟨_, by rw [hspec], ?_, by decide, ?_, by decide, ?_⟩
  · dsimp only
    rw [List.get?_set_ne _ _ (Ne.symm hne23)]
    exact List.get?_set_eq_of_lt _ (by rw [List.length_set, hlen]; exact hlt2)
  · dsimp only
    exact List.get?_set_eq_of_lt _
      (by rw [List.length_set, List.length_set, hlen]; exact hlt3)
  · intro j hj1 hj2 hj3
    dsimp only
    rw [List.get?_set_ne _ _ (Ne.symm hj3), List.get?_set_ne _ _ (Ne.symm hj2),
      List.get?_set_ne _ _ (Ne.symm hj1)]

/-- Witness for C6: the theorem applied to a ring of capacity 8 with cursor
1, reading 512 bytes at byte offset 1024 (sector 2). -/
theorem C6_read_builds_three_descriptor_chain_witness :
    ([sampleBD] : List BlockDevice).get? 0 = some sampleBD ∧
    sampleBD.idx < 8 ∧ (3 : Nat) ≤ 8 ∧ (8 : Nat) ≤ 2 ^ 16 ∧
    sampleBD.queue.desc.length = 8 ∧
    (∃ bdev,
      (read 8 100 0 200 512 1024 (some [sampleBD])).2 =
        ReadOutcome.ok bdev ⟨VIRTIO_BLK_T_IN, 1024 / 512⟩
          ((sampleBD.idx + 1) % 8) ((sampleBD.idx + 2) % 8) ((sampleBD.idx + 3) % 8)
          [⟨MmioReg.QueueNotify, 0⟩] ∧
      bdev.queue.desc.get? ((sampleBD.idx + 2) % 8)
        = some ⟨200, 512, VIRTIO_DESC_F_NEXT ||| VIRTIO_DESC_F_WRITE,
                (sampleBD.idx + 3) % 8⟩ ∧
      (VIRTIO_DESC_F_NEXT ||| VIRTIO_DESC_F_WRITE) &&& VIRTIO_DESC_F_WRITE ≠ 0 ∧
      bdev.queue.desc.get? ((sampleBD.idx + 3) % 8)
        = some ⟨100 + statusOffsetInRequest, sizeOfStatus,
                VIRTIO_DESC_F_WRITE, 0⟩ ∧
      VIRTIO_DESC_F_WRITE &&& VIRTIO_DESC_F_NEXT = 0 ∧
      (∀ j, j ≠ (sampleBD.idx + 1) % 8 → j ≠ (sampleBD.idx + 2) % 8 →
        j ≠ (sampleBD.idx + 3) % 8 →
        bdev.queue.desc.get? j = sampleBD.queue.desc.get? j)) :=
  ⟨rfl, by decide, by decide, by decide, by decide,
   C6_read_builds_three_descriptor_chain 8 100 0 200 512 1024 [sampleBD] sampleBD
     rfl (by decide) (by decide) (by decide) (by decide)⟩

/-- C7: every submitted read publishes the head index into the available
ring at the current producer slot (leaving the other slots unchanged),
advances the available producer index by exactly one modulo the ring
capacity, and its only MMIO write is to the queue-notify doorbell. -/
theorem C7_publish_head_advance_once_and_notify
    (r reqAddr dev buffer size offset : Nat)
    (l : List BlockDevice) (bd : BlockDevice)
    (hdev : l.get? dev = some bd) (hidx : bd.idx < r)
    (h16 : r ≤ 2 ^ 16) (hlen : bd.queue.desc.length = r)
    (hav : bd.queue.availIdx < r) (havlen : bd.queue.availRing.length = r) :
    ∃ bdev,
      (read r reqAddr dev buffer size offset (some l)).2 =
        ReadOutcome.ok bdev ⟨VIRTIO_BLK_T_IN, offset / 512⟩
          ((bd.idx + 1) % r) ((bd.idx + 2) % r) ((bd.idx + 3) % r)
          [⟨MmioReg.QueueNotify, 0⟩] ∧
      bdev.queue.availRing.get? bd.queue.availIdx = some ((bd.idx + 1) % r) ∧
      (∀ j, j ≠ bd.queue.availIdx →
        bdev.queue.availRing.get? j = bd.queue.availRing.get? j) ∧
      bdev.queue.availIdx = (bd.queue.availIdx + 1) % r := by
  have hspec := read_ok_spec r reqAddr dev buffer size offset l bd hdev hidx h16 hlen
  refine ⟨_, by rw [hspec], ?_, ?_, ?_⟩
  · dsimp only
    exact List.get?_set_eq_of_lt _ (by rw [havlen]; exact hav)
  · intro j hj
    dsimp only
    exact List.get?_set_ne _ _ (Ne.symm hj)
  · dsimp only
    exact mod16_mod hav h16

/-- Witness for C7: the theorem applied to a ring of capacity 8 with cursor
1 and available producer index 0. -/
theorem C7_publish_head_advance_once_and_notify_witness :
    ([sampleBD] : List BlockDevice).get? 0 = some sampleBD ∧
    sampleBD.idx < 8 ∧ (8 : Nat) ≤ 2 ^ 16 ∧
    sampleBD.queue.desc.length = 8 ∧
    sampleBD.queue.availIdx < 8 ∧ sampleBD.queue.availRing.length = 8 ∧
    (∃ bdev,
      (read 8 100 0 200 512 1024 (some [sampleBD])).2 =
        ReadOutcome.ok bdev ⟨VIRTIO_BLK_T_IN, 1024 / 512⟩
          ((sampleBD.idx + 1) % 8) ((sampleBD.idx + 2) % 8) ((sampleBD.idx + 3) % 8)
          [⟨MmioReg.QueueNotify, 0⟩] ∧
      bdev.queue.availRing.get? sampleBD.queue.availIdx
        = some ((sampleBD.idx + 1) % 8) ∧
      (∀ j, j ≠ sampleBD.queue.availIdx →
        bdev.queue.availRing.get? j = sampleBD.queue.availRing.get? j) ∧
      bdev.queue.availIdx = (sampleBD.queue.availIdx + 1) % 8) :=
  ⟨rfl, by decide, by decide, by decide, by decide, by decide,
   C7_publish_head_advance_once_and_notify 8 100 0 200 512 1024 [sampleBD] sampleBD
     rfl (by decide) (by decide) (by decide) (by decide) (by decide)⟩

/-- C8: fill_next_descriptor advances the cursor by exactly one modulo the
ring capacity, returns the new cursor, stores the descriptor at the new
cursor with its next field pre-set to the following index modulo capacity
exactly when the CHAINED flag is set (all other slots unchanged); and the
allocation is circular: over any run of ring-capacity + 1 allocations the
last returned index equals the first. -/
theorem C8_fill_cursor_store_and_wraparound
    (r : Nat) (bd : BlockDevice) (d : Descriptor)
    (hidx : bd.idx < r) (h16 : r ≤ 2 ^ 16) (hlen : bd.queue.desc.length = r) :
    (fill_next_descriptor r bd d).2 = (bd.idx + 1) % r ∧
    (fill_next_descriptor r bd d).1.idx = (fill_next_descriptor r bd d).2 ∧
    (fill_next_descriptor r bd d).1.queue.desc.get? ((bd.idx + 1) % r)
      = some (if d.flags &&& VIRTIO_DESC_F_NEXT ≠ 0 then
                ⟨d.addr, d.len, d.flags, ((bd.idx + 1) % r + 1) % r⟩
              else d) ∧
    (∀ j, j ≠ (bd.idx + 1) % r →
      (fill_next_descriptor r bd d).1.queue.desc.get? j
        = bd.queue.desc.get? j) ∧
    ∀ ds : List Descriptor, ds.length = r + 1 →
      (allocRun r bd ds).2.head? = (allocRun r bd ds).2.getLast? := by
  have hr : 0 < r := by omega
  have hspec := fill_spec r bd d hidx h16 hlen
  refine ⟨by rw [fill_snd, mod16_mod hidx h16], by rw [fill_fst_idx, fill_snd], ?_, ?_, ?_⟩
  · rw [hspec]
    dsimp only
    exact List.get?_set_eq_of_lt _ (by rw [hlen]; exact Nat.mod_lt _ hr)
  · intro j hj
    rw [hspec]
    dsimp only
    exact List.get?_set_ne _ _ (Ne.symm hj)
  · intro ds hds
    exact (allocRun_wraparound r bd ds hidx h16 hds).1

/-- Witness for C8: the theorem applied to a chained descriptor on a ring of
capacity 8 with cursor 1. -/
theorem C8_fill_cursor_store_and_wraparound_witness :
    sampleBD.idx < 8 ∧ (8 : Nat) ≤ 2 ^ 16 ∧ sampleBD.queue.desc.length = 8 ∧
    ((fill_next_descriptor 8 sampleBD ⟨7, 9, 1, 0⟩).2 = (sampleBD.idx + 1) % 8 ∧
     (fill_next_descriptor 8 sampleBD ⟨7, 9, 1, 0⟩).1.idx
       = (fill_next_descriptor 8 sampleBD ⟨7, 9, 1, 0⟩).2 ∧
     (fill_next_descriptor 8 sampleBD ⟨7, 9, 1, 0⟩).1.queue.desc.get?
         ((sampleBD.idx + 1) % 8)
       = some (if (7, 9, 1, 0).2.2.1 &&& VIRTIO_DESC_F_NEXT ≠ 0 then
                 ⟨7, 9, 1, ((sampleBD.idx + 1) % 8 + 1) % 8⟩
               else ⟨7, 9, 1, 0⟩) ∧
     (∀ j, j ≠ (sampleBD.idx + 1) % 8 →
       (fill_next_descriptor 8 sampleBD ⟨7, 9, 1, 0⟩).1.queue.desc.get? j
         = sampleBD.queue.desc.get? j) ∧
     ∀ ds : List Descriptor, ds.length = 8 + 1 →
       (allocRun 8 sampleBD ds).2.head? = (allocRun 8 sampleBD ds).2.getLast?) :=
  ⟨by decide, by decide, by decide,
   C8_fill_cursor_store_and_wraparound 8 sampleBD ⟨7, 9, 1, 0⟩
     (by decide) (by decide) (by decide)⟩

/-- C9: after every successful setup_block_device the registered device has
cursor 1, so the first read issued on it (here: at device index vdq.length
of the returned registry) fills its three descriptors at ring indices 2, 3
and 4 with head index 2, leaving slots 0 and 1 still zero. -/
theorem C9_cursor_one_first_read_fills_2_3_4
    (r queuePfn reqAddr buffer size offset : Nat) (inp : DeviceInputs)
    (vdq : List BlockDevice)
    (hf : StatusField.features_ok inp.statusAfterFeaturesOk = true)
    (hq : r ≤ inp.queueNumMax) (hr4 : 4 < r) (h16 : r ≤ 2 ^ 16) :
    ∃ bdev,
      (setup_block_device r queuePfn inp (some vdq)).1 = true ∧
      (setup_block_device r queuePfn inp (some vdq)).2.1
        = some (vdq ++ [⟨zallocQueue r, 1⟩]) ∧
      (⟨zallocQueue r, 1⟩ : BlockDevice).idx = 1 ∧
      (read r reqAddr vdq.length buffer size offset
          (setup_block_device r queuePfn inp (some vdq)).2.1).2
        = ReadOutcome.ok bdev ⟨VIRTIO_BLK_T_IN, offset / 512⟩ 2 3 4
            [⟨MmioReg.QueueNotify, 0⟩] ∧
      bdev.queue.desc.get? 0 = some zeroDesc ∧
      bdev.queue.desc.get? 1 = some zeroDesc := by
  have hsetup := setup_reduce_success r queuePfn inp vdq hf hq
  have hdev : (vdq ++ [(⟨zallocQueue r, 1⟩ : BlockDevice)]).get? vdq.length
      = some ⟨zallocQueue r, 1⟩ := List.get?_concat_length vdq _
  have hspec := read_ok_spec r reqAddr vdq.length buffer size offset
    (vdq ++ [⟨zallocQueue r, 1⟩]) ⟨zallocQueue r, 1⟩ hdev
    (by show 1 < r; omega) h16
    (by show (List.replicate r zeroDesc).length = r; simp)
  have e1 : (1 + 1) % r = 2 := Nat.mod_eq_of_lt (by omega)
  have e2 : (1 + 2) % r = 3 := Nat.mod_eq_of_lt (by omega)
  have e3 : (1 + 3) % r = 4 := Nat.mod_eq_of_lt (by omega)
  dsimp only at hspec
  rw [e1, e2, e3] at hspec
  refine ⟨⟨⟨(((zallocQueue r).desc.set 2
        ⟨reqAddr, sizeOfRequest, VIRTIO_DESC_F_NEXT, 3⟩).set 3
        ⟨buffer, size, VIRTIO_DESC_F_NEXT ||| VIRTIO_DESC_F_WRITE, 4⟩).set 4
        ⟨reqAddr + statusOffsetInRequest, sizeOfStatus, VIRTIO_DESC_F_WRITE, 0⟩,
      (zallocQueue r).availRing.set (zallocQueue r).availIdx 2,
      ((zallocQueue r).availIdx + 1) % 2 ^ 16 % r⟩, 4⟩, ?_, ?_, rfl, ?_, ?_, ?_⟩
  · rw [hsetup]
  · rw [hsetup]
  · rw [hsetup]
    dsimp only
    rw [hspec]
  · dsimp only
    rw [List.get?_set_ne _ _ (by decide), List.get?_set_ne _ _ (by decide),
      List.get?_set_ne _ _ (by decide)]
    exact get?_replicate_lt zeroDesc (by omega)
  · dsimp only
    rw [List.get?_set_ne _ _ (by decide), List.get?_set_ne _ _ (by decide),
      List.get?_set_ne _ _ (by decide)]
    exact get?_replicate_lt zeroDesc (by omega)

/-- Witness for C9: a successful setup of a capacity-8 ring starting from
the fresh empty registry, followed by the first read. -/
theorem C9_cursor_one_first_read_fills_2_3_4_witness :
    StatusField.features_ok sampleInputsOk.statusAfterFeaturesOk = true ∧
    (8 : Nat) ≤ sampleInputsOk.queueNumMax ∧ (4 : Nat) < 8 ∧ (8 : Nat) ≤ 2 ^ 16 ∧
    (∃ bdev,
      (setup_block_device 8 4096 sampleInputsOk (some [])).1 = true ∧
      (setup_block_device 8 4096 sampleInputsOk (some [])).2.1
        = some ([] ++ [⟨zallocQueue 8, 1⟩]) ∧
      (⟨zallocQueue 8, 1⟩ : BlockDevice).idx = 1 ∧
      (read 8 100 ([] : List BlockDevice).length 200 512 1024
          (setup_block_device 8 4096 sampleInputsOk (some [])).2.1).2
        = ReadOutcome.ok bdev ⟨VIRTIO_BLK_T_IN, 1024 / 512⟩ 2 3 4
            [⟨MmioReg.QueueNotify, 0⟩] ∧
      bdev.queue.desc.get? 0 = some zeroDesc ∧
      bdev.queue.desc.get? 1 = some zeroDesc) :=
  ⟨by decide, by decide, by decide, by decide,
   C9_cursor_one_first_read_fills_2_3_4 8 4096 100 200 512 1024 sampleInputsOk []
     (by decide) (by decide) (by decide) (by decide)⟩

end OSBlog
